import Mathlib

/-!
# Verification of `kfactory/widgets/interactive.py` (`LayoutWidget`)

A shallow embedding of the interactive notebook layout-viewer widget.
The widget is glue code over an external rendering engine (`klayout.lay`):
pure marshalling logic (modifier decoding, event dispatch, layer-table
scanning) is translated directly from the source; the opaque engine state
(viewer session, screenshot capture, filesystem, layer-property files) is
modelled from the specification, as noted on each such definition.
-/

set_option autoImplicit false

namespace Interactive

/-- Modelled from the spec: the wrapped engine's `lay.ButtonState` flag
constants ("shift, alt, ctrl key flags map to fixed bits; mouse button
bitmask (left=1, right=2, middle=4) maps to separate fixed bits").  The
engine's concrete numeric values are kept abstract as a record of flag
words, so every theorem below holds for the engine's actual values. -/
structure ButtonState where
  ShiftKey : Nat
  ControlKey : Nat
  AltKey : Nat
  LeftButton : Nat
  RightButton : Nat
  MidButton : Nat
deriving DecidableEq, Repr

/-- The normalized fields of a DOM event dictionary as delivered by the
event-capture library (`ipyevents`); the handlers read the keys
`event`, `deltaY`, `relativeX`, `relativeY`, `movementX`, `movementY`,
`shiftKey`, `altKey`, `ctrlKey`, `buttons`. -/
structure DomEvent where
  event : String
  deltaY : Int
  relativeX : Int
  relativeY : Int
  movementX : Int
  movementY : Int
  shiftKey : Bool
  altKey : Bool
  ctrlKey : Bool
  buttons : Nat
deriving DecidableEq, Repr

/-- `LayoutWidget._get_modifier_buttons`: decode the browser key flags and
mouse-button bitmask of an event into the engine's modifier bitmask. -/
def get_modifier_buttons (bs : ButtonState) (e : DomEvent) : Nat :=
  let shift := e.shiftKey
  let alt := e.altKey
  let ctrl := e.ctrlKey
  let mouse_buttons := e.buttons
  let buttons : Nat := 0
  let buttons := if shift then buttons ||| bs.ShiftKey else buttons
  let buttons := if alt then buttons ||| bs.AltKey else buttons
  let buttons := if ctrl then buttons ||| bs.ControlKey else buttons
  let buttons := if mouse_buttons &&& 1 ≠ 0 then buttons ||| bs.LeftButton else buttons
  let buttons := if mouse_buttons &&& 2 ≠ 0 then buttons ||| bs.RightButton else buttons
  let buttons := if mouse_buttons &&& 4 ≠ 0 then buttons ||| bs.MidButton else buttons
  buttons

/-- The key-flag part of the decoded bitmask. -/
def keyFlags (bs : ButtonState) (e : DomEvent) : Nat :=
  (if e.shiftKey then bs.ShiftKey else 0) |||
  (if e.altKey then bs.AltKey else 0) |||
  (if e.ctrlKey then bs.ControlKey else 0)

/-- The mouse-button part of the decoded bitmask, decoded from the browser
bitmask (left = 1, right = 2, middle = 4). -/
def buttonFlags (bs : ButtonState) (e : DomEvent) : Nat :=
  (if e.buttons &&& 1 ≠ 0 then bs.LeftButton else 0) |||
  (if e.buttons &&& 2 ≠ 0 then bs.RightButton else 0) |||
  (if e.buttons &&& 4 ≠ 0 then bs.MidButton else 0)

/-- A layer-property entry of the viewer session's property table
(`lay.LayerPropertiesNodeRef` as used by the widget: identifying index,
source layer/datatype pair, display name, visibility flag). -/
structure LayerProps where
  layer_index : Nat
  source_layer : Nat
  source_datatype : Nat
  name : String
  visible : Bool
deriving DecidableEq, Repr

/-- A cell of the layout database (`kdb.Cell`), abstracted to its name and
the set of layer indices on which its bounding box is nonempty. -/
structure Cell where
  name : String
  nonempty_layers : List Nat
deriving DecidableEq, Repr

/-- `cell.bbox_per_layer(li).empty()`. -/
def Cell.bbox_empty (c : Cell) (li : Nat) : Bool :=
  !(c.nonempty_layers.contains li)

/-- The layout database (`kdb.Layout`): its cells and the layers it
references (with their default properties). -/
structure Layout where
  cells : List Cell
  layer_list : List LayerProps
deriving DecidableEq, Repr

/-- `layout.cell(name)`: look up a cell by name. -/
def Layout.cell (L : Layout) (nm : String) : Option Cell :=
  L.cells.find? (fun c => c.name == nm)

/-- An event injected into the viewer session through its event API
(`send_wheel_event`, `send_mouse_press_event`, `send_mouse_release_event`,
`send_mouse_move_event`, `send_enter_event`, `send_leave_event`). -/
inductive InjectedEvent where
  | wheel (delta : Int) (horizontal : Bool) (x y : Int) (buttons : Nat)
  | press (x y : Int) (buttons : Nat)
  | release (x y : Int) (buttons : Nat)
  | move (x y : Int) (buttons : Nat)
  | enter
  | leave
deriving DecidableEq, Repr

/-- Modelled from the spec: the opaque viewer session (`lay.LayoutView`,
"holds current cell selection, layer-visibility table, zoom/hierarchy
depth, interaction mode").  Injected interactions are recorded in an
explicit log; `pending_redraw` stands for the engine's deferred repaint
work, processed by `timer()`. -/
structure LayoutView where
  layout : Layout
  active_cell : Cell
  width : Nat
  height : Nat
  hier_full : Bool
  zoom_fitted : Bool
  mode : String
  layers : List LayerProps
  events : List InjectedEvent
  pending_redraw : Bool
deriving DecidableEq, Repr

/-- Modelled from the spec: `layout_view.timer()` processes the engine's
deferred work; it changes no render-relevant state. -/
def LayoutView.timer (v : LayoutView) : LayoutView :=
  { v with pending_redraw := false }

/-- `layout_view.send_wheel_event(delta, horizontal, point, buttons)`:
forwards a wheel delta as a zoom/pan event (the zoom is no longer the
fitted one afterwards). -/
def LayoutView.send_wheel_event (v : LayoutView) (delta : Int) (horizontal : Bool)
    (x y : Int) (buttons : Nat) : LayoutView :=
  { v with events := v.events ++ [.wheel delta horizontal x y buttons],
           zoom_fitted := false, pending_redraw := true }

/-- `layout_view.send_mouse_press_event(point, buttons)`. -/
def LayoutView.send_mouse_press_event (v : LayoutView) (x y : Int) (buttons : Nat) :
    LayoutView :=
  { v with events := v.events ++ [.press x y buttons], pending_redraw := true }

/-- `layout_view.send_mouse_release_event(point, buttons)`. -/
def LayoutView.send_mouse_release_event (v : LayoutView) (x y : Int) (buttons : Nat) :
    LayoutView :=
  { v with events := v.events ++ [.release x y buttons], pending_redraw := true }

/-- `layout_view.send_mouse_move_event(point, buttons)`. -/
def LayoutView.send_mouse_move_event (v : LayoutView) (x y : Int) (buttons : Nat) :
    LayoutView :=
  { v with events := v.events ++ [.move x y buttons], pending_redraw := true }

/-- `layout_view.send_enter_event()`. -/
def LayoutView.send_enter_event (v : LayoutView) : LayoutView :=
  { v with events := v.events ++ [.enter], pending_redraw := true }

/-- `layout_view.send_leave_event()`. -/
def LayoutView.send_leave_event (v : LayoutView) : LayoutView :=
  { v with events := v.events ++ [.leave], pending_redraw := true }

/-- `layout_view.switch_mode(name)`: switch the interaction mode. -/
def LayoutView.switch_mode (v : LayoutView) (m : String) : LayoutView :=
  { v with mode := m, pending_redraw := true }

/-- `layout_view.max_hier()`: show the full hierarchy depth. -/
def LayoutView.max_hier (v : LayoutView) : LayoutView :=
  { v with hier_full := true }

/-- `layout_view.resize(w, h)`. -/
def LayoutView.resize (v : LayoutView) (w h : Nat) : LayoutView :=
  { v with width := w, height := h, pending_redraw := true }

/-- `layout_view.add_missing_layers()`: add the layout's referenced layers
that are absent from the property table. -/
def LayoutView.add_missing_layers (v : LayoutView) : LayoutView :=
  { v with layers := v.layers ++
      (v.layout.layer_list.filter (fun p =>
        !(v.layers.any (fun q => q.layer_index == p.layer_index)))) }

/-- `layout_view.zoom_fit()`: fit the zoom to the active cell's content. -/
def LayoutView.zoom_fit (v : LayoutView) : LayoutView :=
  { v with zoom_fitted := true, pending_redraw := true }

/-- `LayoutWidget.show_cell(cell)`: switch the active cell, show the full
hierarchy, fix the canvas at 800x600, add missing layers, fit the zoom. -/
def show_cell (v : LayoutView) (c : Cell) : LayoutView :=
  ((({ v with active_cell := c }).max_hier.resize 800 600).add_missing_layers).zoom_fit

def boolNat (b : Bool) : Nat := if b then 1 else 0

/-- Length-prefixed byte encoding of a string. -/
def encodeStr (s : String) : List Nat :=
  s.length :: s.data.map Char.toNat

def encodeLayer (p : LayerProps) : Nat :=
  2 * p.layer_index + boolNat p.visible

/-- Modelled from the spec: `get_screenshot_pixels().to_png_data()`, the
engine's screenshot capture, a deterministic encoding of the session's
render-relevant state (`pending_redraw`, being deferred-work bookkeeping
and not pixels, is not part of the image). -/
def screenshot (v : LayoutView) : List Nat :=
  encodeStr v.active_cell.name ++
  ([v.width, v.height, boolNat v.hier_full, boolNat v.zoom_fitted] ++
    (encodeStr v.mode ++
      (v.layers.map encodeLayer ++
        [v.layers.length, v.events.length])))

/-- A control of the layer-selector tree: either a labelled leaf toggle or
a collapsible group with the surviving child controls. -/
inductive LayerSelectorNode where
  | leaf (props : LayerProps) (labelText : String)
  | group (props : LayerProps) (groupName : String)
      (children : List LayerSelectorNode)

/-- A node of the viewer's layer-property tree, as walked by
`lay.LayerPropertiesIterator` (`current()`, `has_children()`,
`down_first_child()`, siblings). -/
inductive PropTree where
  | node (props : LayerProps) (children : List PropTree)

/-- The widget's own state: the constructor flag, the owned viewer
session, the displayed image buffer, and the layer-selector controls. -/
structure WidgetState where
  hide_unused_layers : Bool
  view : LayoutView
  image : List Nat
  layer_boxes : List LayerSelectorNode

/-- `LayoutWidget.refresh()`: run the engine timer, capture a screenshot,
replace the displayed frame, run the timer again. -/
def refresh (w : WidgetState) : WidgetState :=
  let v1 := w.view.timer
  let png := screenshot v1
  let v2 := v1.timer
  { w with view := v2, image := png }

/-- The mutated copy of a matched property node in `button_toggle`'s scan:
visibility flipped, name set to the button's label. -/
def flip_props (target : LayerProps) (nm : String) : LayerProps :=
  { target with visible := !target.visible, name := nm }

/-- The `for props in self.layout_view.each_layer(): ... break` loop of
`button_toggle`: flip the first table entry equal to the button's stored
props, returning the updated table and the mutated entry (stored back
into the button). -/
def toggle_scan (target : LayerProps) (nm : String) :
    List LayerProps → List LayerProps × Option LayerProps
  | [] => ([], none)
  | p :: ps =>
    if p = target then
      (flip_props target nm :: ps, some (flip_props target nm))
    else
      let r := toggle_scan target nm ps
      (p :: r.1, r.2)

/-- The layer toggle-button widget: its label, colors and the property
node it controls. -/
structure ToggleButton where
  name : String
  default_color : String
  button_color : String
  layer_props : LayerProps
deriving DecidableEq, Repr

/-- `LayoutWidget.button_toggle(button)`: flip the button's visual state,
flip the matching layer's visibility in the session, store the mutated
props back into the button, refresh. -/
def button_toggle (w : WidgetState) (b : ToggleButton) :
    WidgetState × ToggleButton :=
  let b := { b with button_color :=
    if b.button_color = b.default_color then "transparent" else b.default_color }
  let scanned := toggle_scan b.layer_props b.name w.view.layers
  let b := match scanned.2 with
    | some p => { b with layer_props := p }
    | none => b
  let w := { w with view :=
    { w.view with layers := scanned.1, pending_redraw := true } }
  (refresh w, b)

/-- `n` successive clicks on the same layer toggle button. -/
def button_toggle_iter : Nat → WidgetState × ToggleButton → WidgetState × ToggleButton
  | 0, s => s
  | n + 1, s => button_toggle_iter n (button_toggle s.1 s.2)

/-- `LayoutWidget.build_layer_toggle(prop_iter)`: a node with children
becomes a collapsible group kept only if some descendant survives; a leaf
is suppressed when its layer's bounding box within the active cell is
empty.  The iterator walk over the node's children is modelled (from the
spec) as a depth-first traversal of the property tree. -/
def build_layer_toggle (w : WidgetState) : PropTree → Option LayerSelectorNode
  | .node props children =>
    if !children.isEmpty then
      let built := children.attach.filterMap
        (fun c => build_layer_toggle w c.1)
      if built.isEmpty then none
      else some (.group props props.name built)
    else
      if w.view.active_cell.bbox_empty props.layer_index then none
      else
        let labelText :=
          if props.name ≠ "" then props.name
          else toString props.source_layer ++ "/" ++ toString props.source_datatype
        some (.leaf props labelText)
termination_by t => sizeOf t
decreasing_by
  simp_wf
  have h := List.sizeOf_lt_of_mem c.2
  omega

/-- The `while not prop_iter.at_end()` loop of `build_selector` /
`on_select_cell`: build a toggle control per surviving top-level property
node (the table is modelled flat, each row a top-level node). -/
def build_selector_boxes (w : WidgetState) : List LayerSelectorNode :=
  w.view.layers.filterMap (fun p => build_layer_toggle w (.node p []))

/-- The `switch_mode` observer registered by `build_modes` on the mode
toggle buttons: it switches the session's interaction mode and does not
refresh. -/
def switch_mode_observer (w : WidgetState) (newMode : String) : WidgetState :=
  { w with view := w.view.switch_mode newMode }

/-- `LayoutWidget.on_scroll(event)`: run the timer, forward the negated
integer wheel delta at the event coordinates with the decoded modifiers,
refresh. -/
def on_scroll (bs : ButtonState) (w : WidgetState) (e : DomEvent) : WidgetState :=
  let v := w.view.timer
  let delta := e.deltaY
  let x := e.relativeX
  let y := e.relativeY
  let buttons := get_modifier_buttons bs e
  let v := v.send_wheel_event (-delta) false x y buttons
  refresh { w with view := v }

/-- `LayoutWidget.on_mouse(event)`: run the timer, inject a press, release
or move event according to the event kind (any other kind injects
nothing), refresh, run the timer. -/
def on_mouse (bs : ButtonState) (w : WidgetState) (e : DomEvent) : WidgetState :=
  let v := w.view.timer
  let x := e.relativeX
  let y := e.relativeY
  let buttons := get_modifier_buttons bs e
  let v :=
    if e.event = "mousedown" then v.send_mouse_press_event x y buttons
    else if e.event = "mouseup" then v.send_mouse_release_event x y buttons
    else if e.event = "mousemove" then v.send_mouse_move_event x y buttons
    else v
  let w := refresh { w with view := v }
  { w with view := w.view.timer }

/-- `LayoutWidget.on_mouse_enter(event)`. -/
def on_mouse_enter (w : WidgetState) : WidgetState :=
  refresh { w with view := w.view.timer.send_enter_event }

/-- `LayoutWidget.on_mouse_leave(event)`. -/
def on_mouse_leave (w : WidgetState) : WidgetState :=
  refresh { w with view := w.view.timer.send_leave_event }

/-- `LayoutWidget.on_select_cell(event)`: look up the selected name in the
current layout, show that cell, rebuild the layer-selector boxes, refresh.
Modelled from the spec: a name not present in the layout makes the wrapped
engine's lookup fail, and the error propagates (this layer adds no
recovery). -/
def on_select_cell (w : WidgetState) (nm : String) : Except String WidgetState :=
  match w.view.layout.cell nm with
  | none => .error ("No cell named " ++ nm)
  | some c =>
    let w := { w with view := show_cell w.view c }
    let w := { w with layer_boxes := build_selector_boxes w }
    .ok (refresh w)

/-- Modelled from the spec: the filesystem as seen by the constructor's
`Path(...).exists() and Path(...).is_file()` check: the directories that
exist, and the regular layer-properties files with their parsed tables. -/
structure FileSystem where
  dirs : List String
  lyp_files : List (String × List LayerProps)
deriving DecidableEq, Repr

/-- `Path(p).is_file()`. -/
def FileSystem.is_file (fs : FileSystem) (p : String) : Bool :=
  (fs.lyp_files.lookup p).isSome

/-- `Path(p).exists()`. -/
def FileSystem.path_exists (fs : FileSystem) (p : String) : Bool :=
  fs.is_file p || fs.dirs.contains p

/-- Modelled from the spec: `layout_view.load_layer_props(path)` loads a
layer-properties file into the session's property table, failing on an
unreadable path. -/
def load_layer_props (fs : FileSystem) (v : LayoutView) (p : String) :
    Except String LayoutView :=
  match fs.lyp_files.lookup p with
  | some tbl => .ok { v with layers := tbl, pending_redraw := true }
  | none => .error ("cannot read layer properties file " ++ p)

/-- Modelled from the spec: `lay.LayoutView()` plus `show_layout(klib)`,
a fresh session over the cell's library with the default property table
(the layout's own layer list). -/
def show_layout (L : Layout) (c : Cell) : LayoutView :=
  { layout := L, active_cell := c, width := 0, height := 0,
    hier_full := false, zoom_fitted := false, mode := "",
    layers := L.layer_list, events := [], pending_redraw := true }

/-- `LayoutWidget.__init__(cell, layer_properties, hide_unused_layers,
with_layer_selector)`: fresh session over the cell's library, optional
layer-properties load guarded by the `exists() and is_file()` check, show
the cell, capture the first frame, refresh, optionally build the layer
selector. -/
def layout_widget_init (fs : FileSystem) (L : Layout) (cell : Cell)
    (layer_properties : Option String) (hide_unused_layers : Bool)
    (with_layer_selector : Bool) : Except String WidgetState := do
  let v0 := show_layout L cell
  let v1 ← match layer_properties with
    | some p =>
      if fs.path_exists p && fs.is_file p then load_layer_props fs v0 p
      else pure v0
    | none => pure v0
  let v2 := show_cell v1 cell
  let png := screenshot v2
  let w : WidgetState :=
    { hide_unused_layers := hide_unused_layers, view := v2,
      image := png, layer_boxes := [] }
  let w := refresh w
  let w :=
    if with_layer_selector then { w with layer_boxes := build_selector_boxes w }
    else w
  pure w

/-- A concrete property entry, cell, layout and widget used as evaluation
fixtures. -/
def sampleProps : LayerProps := ⟨0, 1, 0, "metal1", true⟩

def sampleProps2 : LayerProps := ⟨1, 2, 0, "metal2", false⟩

def sampleCell : Cell := ⟨"TOP", [0]⟩

def sampleCell2 : Cell := ⟨"SUB", []⟩

def sampleLayout : Layout := ⟨[sampleCell, sampleCell2], [sampleProps, sampleProps2]⟩

def sampleView : LayoutView := show_layout sampleLayout sampleCell

def sampleWidget : WidgetState :=
  { hide_unused_layers := true, view := sampleView,
    image := screenshot sampleView, layer_boxes := [] }

def sampleButton : ToggleButton :=
  { name := "metal1", default_color := "#ff0000",
    button_color := "#ff0000", layer_props := sampleProps }

theorem get_modifier_buttons_eq (bs : ButtonState) (e : DomEvent) :
    get_modifier_buttons bs e = keyFlags bs e ||| buttonFlags bs e := by
  rcases e with ⟨ev, dy, rx, ry, mx, my, sh, al, ct, b⟩
  dsimp only [get_modifier_buttons, keyFlags, buttonFlags]
  split_ifs <;> simp [Nat.or_assoc, Nat.zero_or, Nat.or_zero]

theorem lor_absorb_left (a b : Nat) : (a ||| b) ||| a = a ||| b := by
  rw [Nat.or_comm a b, Nat.or_assoc, Nat.or_self]

theorem lor_or_self_right (b c : Nat) : b ||| (c ||| b) = b ||| c := by
  rw [Nat.or_comm c b, ← Nat.or_assoc, Nat.or_self]

theorem lor_absorb_mid (a b c : Nat) : ((a ||| b) ||| c) ||| b = (a ||| b) ||| c := by
  simp [Nat.or_assoc, lor_or_self_right]

theorem lor_absorb_right (x r : Nat) : (x ||| r) ||| r = x ||| r := by
  rw [Nat.or_assoc, Nat.or_self]

/-- C1: for raw fields shift=true, ctrl=false, alt=false, buttons=1 the
decoded bitmask is exactly ShiftKey OR LeftButton; for buttons=3 the
result contains both the LeftButton and the RightButton bits; and in
general the result is the bitwise OR of the key flags and the button
flags decoded from the browser bitmask (left=1, right=2, middle=4). -/
theorem modifier_decoding (bs : ButtonState) (e : DomEvent) :
    (e.shiftKey = true → e.ctrlKey = false → e.altKey = false → e.buttons = 1 →
      get_modifier_buttons bs e = bs.ShiftKey ||| bs.LeftButton) ∧
    (e.buttons = 3 →
      get_modifier_buttons bs e ||| bs.LeftButton = get_modifier_buttons bs e ∧
      get_modifier_buttons bs e ||| bs.RightButton = get_modifier_buttons bs e) ∧
    get_modifier_buttons bs e = keyFlags bs e ||| buttonFlags bs e := by
  refine ⟨?_, ?_, get_modifier_buttons_eq bs e⟩
  · rcases e with ⟨ev, dy, rx, ry, mx, my, sh, al, ct, b⟩
    intro hs hc ha hb
    dsimp only at hs hc ha hb
    subst hs; subst hc; subst ha; subst hb
    have e1 : (1 : Nat) &&& 1 ≠ 0 := by decide
    have e2 : ¬ ((1 : Nat) &&& 2 ≠ 0) := by decide
    have e4 : ¬ ((1 : Nat) &&& 4 ≠ 0) := by decide
    simp [get_modifier_buttons, e1, e2, e4, Nat.zero_or]
  · rcases e with ⟨ev, dy, rx, ry, mx, my, sh, al, ct, b⟩
    intro hb
    dsimp only at hb
    subst hb
    have e1 : (3 : Nat) &&& 1 ≠ 0 := by decide
    have e2 : (3 : Nat) &&& 2 ≠ 0 := by decide
    have e4 : ¬ ((3 : Nat) &&& 4 ≠ 0) := by decide
    simp only [get_modifier_buttons, e1, e2, e4, if_true, ite_true, ite_false,
      not_true, not_false_iff, if_neg, Nat.zero_or]
    exact ⟨lor_absorb_mid _ _ _, lor_absorb_right _ _⟩

/-- Witness for C1 at a concrete flag assignment and event. -/
theorem modifier_decoding_witness :
    get_modifier_buttons ⟨8, 16, 32, 1, 4, 2⟩
        ⟨"wheel", 0, 0, 0, 0, 0, true, false, false, 1⟩ = 8 ||| 1 :=
  (modifier_decoding ⟨8, 16, 32, 1, 4, 2⟩
    ⟨"wheel", 0, 0, 0, 0, 0, true, false, false, 1⟩).1 rfl rfl rfl rfl

theorem screenshot_timer (v : LayoutView) : screenshot v.timer = screenshot v := rfl

/-- C3: refresh is idempotent — refreshing twice in a row produces two
byte-identical frames, and leaves the widget in the same state as one
refresh. -/
theorem refresh_idempotent (w : WidgetState) :
    (refresh (refresh w)).image = (refresh w).image ∧
    (refresh (refresh w)).view = (refresh w).view :=
  ⟨rfl, rfl⟩

/-- C9: on_scroll forwards exactly one wheel event whose delta is the
negated integer deltaY, with the event coordinates and the decoded
modifier bitmask unchanged. -/
theorem on_scroll_forwards (bs : ButtonState) (w : WidgetState) (e : DomEvent) :
    (on_scroll bs w e).view.events =
      w.view.events ++
        [.wheel (-(e.deltaY)) false e.relativeX e.relativeY
          (get_modifier_buttons bs e)] := rfl

/-- C10: a mouse event whose kind is none of mousedown, mouseup and
mousemove injects nothing into the viewer session — only the deferred work
flag is processed — yet a fresh screenshot replaces the displayed frame. -/
theorem on_mouse_other_kind (bs : ButtonState) (w : WidgetState) (e : DomEvent)
    (h1 : e.event ≠ "mousedown") (h2 : e.event ≠ "mouseup")
    (h3 : e.event ≠ "mousemove") :
    (on_mouse bs w e).view = { w.view with pending_redraw := false } ∧
    (on_mouse bs w e).view.events = w.view.events ∧
    (on_mouse bs w e).image = screenshot (on_mouse bs w e).view := by
  have hv : (on_mouse bs w e).view = { w.view with pending_redraw := false } := by
    simp [on_mouse, h1, h2, h3, refresh, LayoutView.timer]
  refine ⟨hv, by rw [hv], ?_⟩
  rw [hv]
  simp [on_mouse, h1, h2, h3, refresh, LayoutView.timer, screenshot]

/-- Witness for C10 at a concrete contextmenu event. -/
theorem on_mouse_other_kind_witness :
    (on_mouse ⟨8, 16, 32, 1, 4, 2⟩ sampleWidget
        ⟨"contextmenu", 0, 5, 7, 0, 0, false, false, false, 2⟩).view =
      { sampleWidget.view with pending_redraw := false } ∧
    (on_mouse ⟨8, 16, 32, 1, 4, 2⟩ sampleWidget
        ⟨"contextmenu", 0, 5, 7, 0, 0, false, false, false, 2⟩).view.events =
      sampleWidget.view.events ∧
    (on_mouse ⟨8, 16, 32, 1, 4, 2⟩ sampleWidget
        ⟨"contextmenu", 0, 5, 7, 0, 0, false, false, false, 2⟩).image =
      screenshot (on_mouse ⟨8, 16, 32, 1, 4, 2⟩ sampleWidget
        ⟨"contextmenu", 0, 5, 7, 0, 0, false, false, false, 2⟩).view :=
  on_mouse_other_kind ⟨8, 16, 32, 1, 4, 2⟩ sampleWidget
    ⟨"contextmenu", 0, 5, 7, 0, 0, false, false, false, 2⟩
    (by decide) (by decide) (by decide)

/-- C7 fails on the code: the interaction-mode switch observer installed
by build_modes mutates the session's mode but never refreshes, so the
previous frame stays displayed and is not a screenshot of the
post-mutation state (the unused switch_mode helper defined in the
constructor does refresh, which marks the omission as a slip). -/
theorem mode_switch_leaves_stale_frame :
    (switch_mode_observer sampleWidget "move").view.mode = "move" ∧
    (switch_mode_observer sampleWidget "move").image = sampleWidget.image ∧
    (switch_mode_observer sampleWidget "move").image ≠
      screenshot (switch_mode_observer sampleWidget "move").view := by
  refine ⟨rfl, rfl, ?_⟩
  decide

theorem toggle_scan_map_index (t : LayerProps) (nm : String) (ls : List LayerProps) :
    (toggle_scan t nm ls).1.map LayerProps.layer_index = ls.map LayerProps.layer_index := by
  induction ls with
  | nil => rfl
  | cons p ps ih =>
    by_cases hp : p = t
    · subst hp; simp [toggle_scan, flip_props]
    · simp [toggle_scan, hp, ih]

theorem toggle_scan_none (t : LayerProps) (nm : String) (ls : List LayerProps)
    (h : (toggle_scan t nm ls).2 = none) : (toggle_scan t nm ls).1 = ls := by
  induction ls with
  | nil => rfl
  | cons p ps ih =>
    by_cases hp : p = t
    · subst hp; simp [toggle_scan] at h
    · simp only [toggle_scan, hp, if_neg, ite_false] at h ⊢
      simp [hp] at h ⊢
      exact ih h

theorem toggle_scan_some (t : LayerProps) (nm : String) (ls : List LayerProps)
    (p : LayerProps) (h : (toggle_scan t nm ls).2 = some p) :
    p = flip_props t nm ∧ t ∈ ls := by
  induction ls with
  | nil => simp [toggle_scan] at h
  | cons q qs ih =>
    by_cases hq : q = t
    · subst hq
      simp [toggle_scan] at h
      exact ⟨h.symm, List.mem_cons_self q qs⟩
    · simp [toggle_scan, hq] at h
      rcases ih h with ⟨h1, h2⟩
      exact ⟨h1, List.mem_cons_of_mem q h2⟩

theorem toggle_scan_twice_visible (t : LayerProps) (nm : String)
    (ls : List LayerProps)
    (hnd : (ls.map LayerProps.layer_index).Nodup) :
    ((toggle_scan ((toggle_scan t nm ls).2.getD t) nm
        (toggle_scan t nm ls).1).1.map LayerProps.visible)
      = ls.map LayerProps.visible := by
  induction ls with
  | nil => rfl
  | cons p ps ih =>
    by_cases hp : p = t
    · subst hp
      simp [toggle_scan, flip_props]
    · have hnd' : (ps.map LayerProps.layer_index).Nodup :=
        (List.nodup_cons.mp (by simpa using hnd)).2
      have hni : p.layer_index ∉ ps.map LayerProps.layer_index :=
        (List.nodup_cons.mp (by simpa using hnd)).1
      cases hr : (toggle_scan t nm ps).2 with
      | none =>
        have he : (toggle_scan t nm ps).1 = ps := toggle_scan_none t nm ps hr
        simp [toggle_scan, hp, hr, he]
      | some q =>
        rcases toggle_scan_some t nm ps q hr with ⟨hq, hmem⟩
        have hpq : p ≠ q := by
          intro hpq
          apply hni
          have hqt : q.layer_index = t.layer_index := by
            rw [hq]; rfl
          rw [hpq, hqt]
          exact List.mem_map_of_mem LayerProps.layer_index hmem
        have ihq := ih hnd'
        rw [hr] at ihq
        simp only [Option.getD_some] at ihq
        simp [toggle_scan, hp, hpq, hr, ihq]

theorem button_toggle_layers (w : WidgetState) (b : ToggleButton) :
    (button_toggle w b).1.view.layers =
      (toggle_scan b.layer_props b.name w.view.layers).1 := by
  cases hs : (toggle_scan b.layer_props b.name w.view.layers).2 <;>
    simp [button_toggle, hs, refresh, LayoutView.timer]

theorem button_toggle_props (w : WidgetState) (b : ToggleButton) :
    (button_toggle w b).2.layer_props =
      (toggle_scan b.layer_props b.name w.view.layers).2.getD b.layer_props := by
  cases hs : (toggle_scan b.layer_props b.name w.view.layers).2 <;>
    simp [button_toggle, hs, refresh, LayoutView.timer]

theorem button_toggle_name (w : WidgetState) (b : ToggleButton) :
    (button_toggle w b).2.name = b.name := by
  cases hs : (toggle_scan b.layer_props b.name w.view.layers).2 <;>
    simp [button_toggle, hs, refresh, LayoutView.timer]

theorem button_toggle_map_index (w : WidgetState) (b : ToggleButton) :
    ((button_toggle w b).1.view.layers.map LayerProps.layer_index) =
      w.view.layers.map LayerProps.layer_index := by
  rw [button_toggle_layers]
  exact toggle_scan_map_index _ _ _

theorem button_toggle_twice_visible (w : WidgetState) (b : ToggleButton)
    (hnd : (w.view.layers.map LayerProps.layer_index).Nodup) :
    ((button_toggle (button_toggle w b).1
        (button_toggle w b).2).1.view.layers.map LayerProps.visible)
      = w.view.layers.map LayerProps.visible := by
  have key := toggle_scan_twice_visible b.layer_props b.name w.view.layers hnd
  rw [button_toggle_layers ((button_toggle w b).1) ((button_toggle w b).2),
    button_toggle_props w b, button_toggle_name w b, button_toggle_layers w b]
  exact key

theorem toggle_iter_even_aux (m : Nat) (s : WidgetState × ToggleButton)
    (hnd : (s.1.view.layers.map LayerProps.layer_index).Nodup) :
    ((button_toggle_iter (2 * m) s).1.view.layers.map LayerProps.visible)
      = s.1.view.layers.map LayerProps.visible := by
  induction m generalizing s with
  | zero => rfl
  | succ k ih =>
    have hnd1 :
        (((button_toggle s.1 s.2).1).view.layers.map LayerProps.layer_index).Nodup := by
      rw [button_toggle_map_index]; exact hnd
    have hnd2 :
        (((button_toggle (button_toggle s.1 s.2).1
            (button_toggle s.1 s.2).2).1).view.layers.map LayerProps.layer_index).Nodup := by
      rw [button_toggle_map_index]; exact hnd1
    have hunf : button_toggle_iter (2 * (k + 1)) s =
        button_toggle_iter (2 * k)
          (button_toggle (button_toggle s.1 s.2).1 (button_toggle s.1 s.2).2) := by
      have h2 : 2 * (k + 1) = 2 * k + 1 + 1 := by ring
      rw [h2]
      rfl
    rw [hunf, ih _ hnd2]
    exact button_toggle_twice_visible s.1 s.2 hnd

/-- C2: an even number of clicks on the same layer's toggle button leaves
every layer's visibility flag in the viewer session at its original
value (the layer-index column of the property table being duplicate-free). -/
theorem toggle_even_count_involution (w : WidgetState) (b : ToggleButton) (m : Nat)
    (hnd : (w.view.layers.map LayerProps.layer_index).Nodup) :
    ((button_toggle_iter (2 * m) (w, b)).1.view.layers.map LayerProps.visible)
      = w.view.layers.map LayerProps.visible :=
  toggle_iter_even_aux m (w, b) hnd

/-- Witness for C2: two clicks on a concrete widget and button. -/
theorem toggle_even_count_involution_witness :
    ((button_toggle_iter (2 * 1) (sampleWidget, sampleButton)).1.view.layers.map
        LayerProps.visible)
      = sampleWidget.view.layers.map LayerProps.visible :=
  toggle_even_count_involution sampleWidget sampleButton 1 (by decide)

/-- C4: a layer-properties path that is not a regular file makes the
constructor skip the properties load entirely: construction succeeds and
the result is the same as constructing without a properties path, so the
session's property table stays at its default state. -/
theorem init_missing_lyp (fs : FileSystem) (L : Layout) (c : Cell) (p : String)
    (hu ws : Bool) (h : fs.is_file p = false) :
    layout_widget_init fs L c (some p) hu ws = layout_widget_init fs L c none hu ws ∧
    ∃ w, layout_widget_init fs L c (some p) hu ws = Except.ok w := by
  have hg : (fs.path_exists p && fs.is_file p) = false := by simp [h]
  have heq : layout_widget_init fs L c (some p) hu ws
      = layout_widget_init fs L c none hu ws := by
    simp [layout_widget_init, hg]
  refine ⟨heq, ?_⟩
  rw [heq]
  exact ⟨_, rfl⟩

/-- Witness for C4 at a concrete filesystem without the requested file. -/
theorem init_missing_lyp_witness :
    (layout_widget_init ⟨["/tmp"], []⟩ sampleLayout sampleCell (some "/missing.lyp")
        true true
      = layout_widget_init ⟨["/tmp"], []⟩ sampleLayout sampleCell none true true) ∧
    ∃ w, layout_widget_init ⟨["/tmp"], []⟩ sampleLayout sampleCell (some "/missing.lyp")
        true true = Except.ok w :=
  init_missing_lyp ⟨["/tmp"], []⟩ sampleLayout sampleCell "/missing.lyp" true true
    (by decide)

/-- C5: selecting a cell name absent from the layout makes the handler
fail with a lookup error instead of proceeding to a blank view. -/
theorem select_missing_cell_errors (w : WidgetState) (nm : String)
    (h : w.view.layout.cell nm = none) :
    on_select_cell w nm = Except.error ("No cell named " ++ nm) := by
  simp [on_select_cell, h]

/-- Witness for C5 at a concrete widget and missing name. -/
theorem select_missing_cell_errors_witness :
    on_select_cell sampleWidget "MISSING" = Except.error ("No cell named " ++ "MISSING") :=
  select_missing_cell_errors sampleWidget "MISSING" (by decide)

theorem PropTree.inductionOn {motive : PropTree → Prop}
    (h : ∀ p cs, (∀ c ∈ cs, motive c) → motive (PropTree.node p cs))
    (t : PropTree) : motive t :=
  @PropTree.rec motive (fun cs => ∀ c ∈ cs, motive c)
    (fun p cs ih => h p cs ih)
    (fun c hc => absurd hc (List.not_mem_nil c))
    (fun hd tl hhd htl c hc => by
      cases hc with
      | head => exact hhd
      | tail _ h2 => exact htl c h2)
    t

theorem build_layer_toggle_flag_irrel (flag : Bool) (w : WidgetState) (t : PropTree) :
    build_layer_toggle { w with hide_unused_layers := flag } t
      = build_layer_toggle w t := by
  induction t using PropTree.inductionOn with
  | h p cs ih =>
    simp only [build_layer_toggle]
    have hfm : cs.attach.filterMap
        (fun c => build_layer_toggle { w with hide_unused_layers := flag } c.1)
        = cs.attach.filterMap (fun c => build_layer_toggle w c.1) := by
      apply List.filterMap_congr
      intro c _
      exact ih c.1 c.2
    rw [hfm]

/-- C6: during layer-selector construction a leaf node is suppressed
exactly when its layer's bounding box within the active cell is empty,
and the construction never consults the hide-unused-layers constructor
flag (the result is the same for every value of the flag, on every
property subtree). -/
theorem leaf_suppression (w : WidgetState) (props : LayerProps) :
    (∀ flag : Bool, ∀ t : PropTree,
      build_layer_toggle { w with hide_unused_layers := flag } t
        = build_layer_toggle w t) ∧
    (build_layer_toggle w (PropTree.node props []) = none ↔
      w.view.active_cell.bbox_empty props.layer_index = true) := by
  refine ⟨fun flag t => build_layer_toggle_flag_irrel flag w t, ?_⟩
  by_cases hb : w.view.active_cell.bbox_empty props.layer_index
  · simp [build_layer_toggle, hb]
  · simp [build_layer_toggle, hb]

theorem char_toNat_injective : Function.Injective Char.toNat := by
  intro a b h
  have h2 := congrArg Char.ofNat h
  simpa [Char.ofNat_toNat] using h2

theorem encodeStr_prefix_inj {s t : String} {xs ys : List Nat}
    (h : encodeStr s ++ xs = encodeStr t ++ ys) : s = t := by
  unfold encodeStr at h
  rw [List.cons_append, List.cons_append] at h
  obtain ⟨h1, h2⟩ := List.cons_eq_cons.mp h
  have hlen : (s.data.map Char.toNat).length = (t.data.map Char.toNat).length := by
    simp only [List.length_map]
    exact h1
  obtain ⟨h3, -⟩ := List.append_inj h2 hlen
  have hd : s.data = t.data := List.map_injective_iff.mpr char_toNat_injective h3
  exact String.ext hd

theorem screenshot_name_ne {v v' : LayoutView}
    (h : v.active_cell.name ≠ v'.active_cell.name) :
    screenshot v ≠ screenshot v' := by
  intro he
  simp only [screenshot] at he
  exact h (encodeStr_prefix_inj he)

/-- C8: show_cell switches the active cell, shows the full hierarchy,
fixes the canvas at 800x600, adds the layout's referenced layers missing
from the property table, fits the zoom; show_cell followed immediately by
refresh displays a screenshot of that new state, which differs from the
previous cell's frame. -/
theorem show_cell_then_refresh (w : WidgetState) (c : Cell)
    (hne : w.view.active_cell.name ≠ c.name) :
    (show_cell w.view c).active_cell = c ∧
    (show_cell w.view c).width = 800 ∧
    (show_cell w.view c).height = 600 ∧
    (show_cell w.view c).hier_full = true ∧
    (show_cell w.view c).zoom_fitted = true ∧
    (∀ p ∈ w.view.layout.layer_list, ∃ q ∈ (show_cell w.view c).layers,
      q.layer_index = p.layer_index) ∧
    (refresh { w with view := show_cell w.view c }).image =
      screenshot (refresh { w with view := show_cell w.view c }).view ∧
    (refresh { w with view := show_cell w.view c }).image ≠ screenshot w.view := by
  have hl : (show_cell w.view c).layers
      = w.view.layers ++
        (w.view.layout.layer_list.filter (fun p =>
          !(w.view.layers.any (fun q => q.layer_index == p.layer_index)))) := rfl
  refine ⟨rfl, rfl, rfl, rfl, rfl, ?_, rfl, ?_⟩
  · intro p hp
    rw [hl]
    by_cases hq : w.view.layers.any (fun q => q.layer_index == p.layer_index)
    · rcases List.any_eq_true.mp hq with ⟨q, hq1, hq2⟩
      exact ⟨q, List.mem_append_left _ hq1, by simpa using hq2⟩
    · refine ⟨p, List.mem_append_right _ (List.mem_filter.mpr ⟨hp, ?_⟩), rfl⟩
      simp [hq]
  · have him : (refresh { w with view := show_cell w.view c }).image
        = screenshot (show_cell w.view c) := rfl
    rw [him]
    apply screenshot_name_ne
    show c.name ≠ w.view.active_cell.name
    exact fun hh => hne hh.symm

/-- Witness for C8 at a concrete widget and a different concrete cell. -/
theorem show_cell_then_refresh_witness :
    (show_cell sampleWidget.view sampleCell2).active_cell = sampleCell2 ∧
    (refresh { sampleWidget with view := show_cell sampleWidget.view sampleCell2 }).image
      ≠ screenshot sampleWidget.view :=
  ⟨(show_cell_then_refresh sampleWidget sampleCell2 (by decide)).1,
    (show_cell_then_refresh sampleWidget sampleCell2 (by decide)).2.2.2.2.2.2.2⟩

end Interactive
